import Mathlib

/-!
Shallow embedding of the Samband event-ingestion core
(`src/api/app/database.py` and `src/api/app/fetcher.py`).

Modelling conventions:
* Incoming records are JSON objects; a field is either absent, JSON `null`,
  or a value.  Event ids are integers when present (the upstream data model,
  spec section 6, declares `id` an integer).
* Timestamps produced by `datetime.utcnow().isoformat()` are modelled as
  integer epoch seconds: ISO-8601 UTC strings compare lexicographically in
  chronological order, so the order structure is preserved.
* SQLite state is explicit: a `DB` value holds the three tables; a `Conn`
  additionally carries the connection's cumulative change counter
  (`sqlite3.Connection.total_changes`).
* Python exceptions are `Except PyErr`; code that cannot raise is total.
-/

set_option autoImplicit false

namespace Samband

/-- A string-valued JSON field of an incoming record: the key may be absent,
hold JSON `null`, or hold a string. -/
inductive JStr where
  | absent
  | null
  | str (s : String)
deriving DecidableEq, Repr

/-- The `location` field of an incoming record: absent, JSON `null`, or an
object with (possibly absent/null) `name` and `gps` members. -/
inductive JLoc where
  | absent
  | null
  | obj (name : JStr) (gps : JStr)
deriving DecidableEq, Repr

/-- The `id` field: absent or an integer (per the upstream data model,
ids are integers assigned by the remote source). -/
inductive JId where
  | absent
  | val (n : Int)
deriving DecidableEq, Repr

/-- An incoming event record as delivered by the remote JSON array. -/
structure RawEvent where
  id : JId
  datetime : JStr
  name : JStr
  summary : JStr
  url : JStr
  type : JStr
  location : JLoc
deriving DecidableEq, Repr

/-- Python exceptions that the embedded code can raise. -/
inductive PyErr where
  | keyError (k : String)
  | typeError (msg : String)
deriving DecidableEq, Repr

/-- A row of the `events` table.  Columns declared `NOT NULL` are plain
values; nullable columns (`summary`, `url`, `location_gps`) are `Option`,
`none` standing for SQL `NULL`.  `raw_data` stores the original record
(`json.dumps` of the incoming dict). -/
structure EventRow where
  id : Int
  datetime : String
  name : String
  summary : Option String
  url : Option String
  type : String
  location_name : String
  location_gps : Option String
  raw_data : RawEvent
  fetched_at : Int
deriving DecidableEq, Repr

/-- A row of the `fetch_log` table. -/
structure FetchLogRow where
  fetched_at : Int
  events_fetched : Nat
  events_new : Nat
  success : Bool
  error_message : Option String
deriving DecidableEq, Repr

/-- A row of the `backup_log` table. -/
structure BackupLogRow where
  backup_at : Int
  filename : String
  size_bytes : Option Nat
  success : Bool
  error_message : Option String
deriving DecidableEq, Repr

/-- The database: the three tables created by `init_database`. -/
structure DB where
  events : List EventRow
  fetch_log : List FetchLogRow
  backup_log : List BackupLogRow
deriving DecidableEq, Repr

/-- The empty database, as created by `init_database` on a fresh file. -/
def emptyDB : DB := ⟨[], [], []⟩

/-- An open SQLite connection: the database plus the connection's cumulative
`total_changes` counter (0 on a freshly opened connection). -/
structure Conn where
  db : DB
  totalChanges : Nat
deriving DecidableEq, Repr

/-- The tuple of SQL parameter values bound by `insert_event`
(database.py lines 157-168); `none` is SQL `NULL`. -/
structure InsertVals where
  id : Int
  datetime : Option String
  name : Option String
  summary : Option String
  url : Option String
  type : Option String
  location_name : Option String
  location_gps : Option String
deriving DecidableEq, Repr

/-- Python `event[k]` on a string field: `KeyError` if the key is absent,
otherwise the value (JSON `null` becomes SQL `NULL`). -/
def jIndex (k : String) : JStr → Except PyErr (Option String)
  | .absent => .error (.keyError k)
  | .null => .ok none
  | .str s => .ok (some s)

/-- Python `event.get(k, "")` on a string field: the default applies only
when the key is absent; a stored `null` is returned as-is. -/
def jGet : JStr → Option String
  | .absent => some ""
  | .null => none
  | .str s => some s

/-- Python `event["location"]["name"]`: `KeyError "location"` if `location`
is absent, `TypeError` if it is `null` (subscripting `None`),
`KeyError "name"` if the object lacks `name`. -/
def locIndexName : JLoc → Except PyErr (Option String)
  | .absent => .error (.keyError "location")
  | .null => .error (.typeError "NoneType is not subscriptable")
  | .obj nm _ =>
    match nm with
    | .absent => .error (.keyError "name")
    | .null => .ok none
    | .str s => .ok (some s)

/-- Python `event["location"].get("gps", "")`. -/
def locGetGps : JLoc → Except PyErr (Option String)
  | .absent => .error (.keyError "location")
  | .null => .error (.typeError "NoneType is not subscriptable")
  | .obj _ gps => .ok (jGet gps)

/-- Building the bound-parameter tuple of `insert_event`, in the evaluation
order of the Python source (database.py lines 158-165): the first failing
subscript raises. -/
def extractVals (e : RawEvent) : Except PyErr InsertVals := do
  let i ← match e.id with
    | .absent => Except.error (.keyError "id")
    | .val n => Except.ok n
  let dt ← jIndex "datetime" e.datetime
  let nm ← jIndex "name" e.name
  let sm := jGet e.summary
  let u := jGet e.url
  let ty ← jIndex "type" e.type
  let ln ← locIndexName e.location
  let lg ← locGetGps e.location
  return { id := i, datetime := dt, name := nm, summary := sm, url := u,
           type := ty, location_name := ln, location_gps := lg }

/-- Whether the `events` table already holds a row with this primary key. -/
def hasEventId (rows : List EventRow) (i : Int) : Bool :=
  rows.any (fun r => r.id == i)

/-- Whether a bound-parameter tuple violates a `NOT NULL` column of the
`events` table (`datetime`, `name`, `type`, `location_name`; the bound
`raw_data` and `fetched_at` are never `NULL`, and `id` is an integer). -/
def hasNullRequired (v : InsertVals) : Bool :=
  v.datetime.isNone || v.name.isNone || v.type.isNone || v.location_name.isNone

/-- The row stored for a non-conflicting insert (only reached when no bound
`NOT NULL` column is `NULL`, so the `getD` defaults are never exercised). -/
def mkRow (v : InsertVals) (raw : RawEvent) (now : Int) : EventRow :=
  { id := v.id, datetime := v.datetime.getD "", name := v.name.getD "",
    summary := v.summary, url := v.url, type := v.type.getD "",
    location_name := v.location_name.getD "", location_gps := v.location_gps,
    raw_data := raw, fetched_at := now }

/-- SQLite `INSERT OR IGNORE INTO events`: with conflict resolution IGNORE,
a duplicate PRIMARY KEY and a `NOT NULL` violation both cause the row to be
silently skipped (no error, no change); otherwise the row is appended and
the connection's change counter is incremented.  (The table has no other
constraints that the bound values could violate.) -/
def sqlInsertEvent (c : Conn) (v : InsertVals) (raw : RawEvent) (now : Int) : Conn :=
  if hasEventId c.db.events v.id then c
  else if hasNullRequired v then c
  else
    { db := { c.db with events := c.db.events ++ [mkRow v raw now] },
      totalChanges := c.totalChanges + 1 }

/-- `database.insert_event`: builds the bound values (raising `KeyError` or
`TypeError` exactly where the Python subscripting would), executes the
`INSERT OR IGNORE`, and returns `conn.total_changes > 0` — the
connection-cumulative change counter, not a per-statement count.  The
`except sqlite3.IntegrityError` clause of the source never fires in this
model because `OR IGNORE` already absorbs every integrity conflict the
schema can produce. -/
def insert_event (c : Conn) (e : RawEvent) (now : Int) : Except PyErr (Conn × Bool) := do
  let v ← extractVals e
  let c' := sqlInsertEvent c v e now
  return (c', c'.totalChanges != 0)

/-- `database.log_fetch`: appends a row to `fetch_log` (and bumps the
connection's change counter). -/
def log_fetch (c : Conn) (fetched newCount : Nat) (success : Bool)
    (err : Option String) (now : Int) : Conn :=
  { db := { c.db with
            fetch_log := c.db.fetch_log ++
              [⟨now, fetched, newCount, success, err⟩] },
    totalChanges := c.totalChanges + 1 }

/-- The required-key validation of `fetch_and_store_events`
(fetcher.py line 77): only the presence of the five top-level keys is
checked; nothing is checked inside `location`. -/
def hasRequiredKeys (e : RawEvent) : Bool :=
  e.id != JId.absent && e.datetime != JStr.absent && e.name != JStr.absent &&
  e.type != JStr.absent && e.location != JLoc.absent

/-- The per-record loop of `fetch_and_store_events` (fetcher.py lines
75-82): skip records failing the key check, insert the rest, count the
inserts reported as new.  An exception from `insert_event` aborts the
remainder of the batch. -/
def processEvents (now : Int) : List RawEvent → Conn → Except PyErr (Conn × Nat)
  | [], c => .ok (c, 0)
  | e :: rest, c =>
    if hasRequiredKeys e then
      match insert_event c e now with
      | .error err => .error err
      | .ok (c', isNew) =>
        match processEvents now rest c' with
        | .error err => .error err
        | .ok (c'', n) => .ok (c'', (if isNew then 1 else 0) + n)
    else
      processEvents now rest c

/-- The statistics dict returned by `fetch_and_store_events`
(`elapsed_seconds`, wall-clock time, is not modelled). -/
structure FetchResult where
  success : Bool
  events_fetched : Nat
  events_new : Nat
  error : Option String
deriving DecidableEq, Repr

/-- `fetcher.fetch_and_store_events`, given the batch returned by
`fetch_police_events`.  An empty batch (remote failure, or a genuinely
empty array) takes the failure path: a failed fetch-log row and a failure
result.  Otherwise one connection processes the whole batch, commits, and
logs success.  An exception raised while processing propagates
(`Except.error`); the uncommitted transaction is rolled back when the
connection closes, so the store is unchanged on that path. -/
def fetch_and_store_events (batch : List RawEvent) (db : DB) (now : Int) :
    Except PyErr (DB × FetchResult) :=
  if batch.isEmpty then
    let c := log_fetch ⟨db, 0⟩ 0 0 false (some "Failed to fetch events") now
    .ok (c.db, ⟨false, 0, 0, some "Failed to fetch events from Police API"⟩)
  else
    match processEvents now batch ⟨db, 0⟩ with
    | .error err => .error err
    | .ok (c, n) =>
      let c' := log_fetch c batch.length n true none now
      .ok (c'.db, ⟨true, batch.length, n, none⟩)

/-- The outcome of the HTTP request made by `fetch_police_events`. -/
inductive RemoteResponse where
  | payload (events : List RawEvent)
  | timeout
  | httpStatusError (code : Nat)
  | nonListPayload
  | otherError (msg : String)
deriving DecidableEq, Repr

/-- `fetcher.fetch_police_events`: a 2xx JSON-array response yields the
array; every failure path (timeout, HTTP error, non-list payload, any other
exception) collapses to the empty list. -/
def fetch_police_events : RemoteResponse → List RawEvent
  | .payload events => events
  | .timeout => []
  | .httpStatusError _ => []
  | .nonListPayload => []
  | .otherError _ => []

/-- One full fetch cycle: `fetch_police_events` composed with
`fetch_and_store_events`. -/
def runFetchCycle (r : RemoteResponse) (db : DB) (now : Int) :
    Except PyErr (DB × FetchResult) :=
  fetch_and_store_events (fetch_police_events r) db now

/-- Thirty days, in the epoch-second model of timestamps. -/
def days30 : Int := 30 * 86400

/-- `database.cleanup_old_logs`: `DELETE FROM fetch_log WHERE fetched_at <
now - 30 days`, returning the deleted-row count (`cursor.rowcount`).  It
touches no other table. -/
def cleanup_old_logs (db : DB) (now : Int) : DB × Nat :=
  let cutoff := now - days30
  ({ db with fetch_log := db.fetch_log.filter (fun r => !decide (r.fetched_at < cutoff)) },
   (db.fetch_log.filter (fun r => decide (r.fetched_at < cutoff))).length)

/-- Strict lexicographic order on character lists.  SQLite compares TEXT
values by `memcmp` on their UTF-8 bytes; UTF-8 byte order coincides with
codepoint order, so this is the engine's comparison. -/
def charListLt : List Char → List Char → Bool
  | _, [] => false
  | [], _ :: _ => true
  | a :: as, b :: bs => Nat.blt a.toNat b.toNat || (a == b && charListLt as bs)

/-- SQLite `<` on TEXT values. -/
def strLt (a b : String) : Bool := charListLt a.data b.data

/-- SQLite `<=` on TEXT values (the order is total: `a <= b ↔ ¬ b < a`). -/
def strLe (a b : String) : Bool := !strLt b a

/-- `pat` is a left-anchored prefix of the other list. -/
def charListBegins : List Char → List Char → Bool
  | [], _ => true
  | _ :: _, [] => false
  | p :: ps, c :: cs => p == c && charListBegins ps cs

/-- `s` starts with `pat`. -/
def strStarts (s pat : String) : Bool := charListBegins pat.data s.data

/-- Python `str.lower()` (ASCII range; the sort argument compared against
`"desc"` is ASCII). -/
def strToLower (s : String) : String := ⟨s.data.map Char.toLower⟩

/-- Python truthiness of an optional string argument (`if location:` in
`get_events`): `None` and the empty string are falsy, so an empty-string
argument does not add its filter. -/
def pyTruthy : Option String → Bool
  | none => false
  | some s => s != ""

/-- The `WHERE` clause built by `database.get_events` (lines 373-395): every
truthy argument contributes one conjunct.  `date` contributes
`datetime LIKE '{date}%'`, modelled by `String.startsWith` (the documented
`YYYY[-MM[-DD]]` arguments contain no SQL wildcard and no letters, so LIKE
is exactly a left-anchored prefix match); `from_date` and `to_date`
contribute SQLite text comparisons, which for these ASCII strings agree
with `String` order. -/
def matchesFilters (location event_type date from_date to_date : Option String)
    (r : EventRow) : Bool :=
  (!pyTruthy location || r.location_name == location.getD "") &&
  (!pyTruthy event_type || r.type == event_type.getD "") &&
  (!pyTruthy date || strStarts r.datetime (date.getD "")) &&
  (!pyTruthy from_date || strLe (from_date.getD "") r.datetime) &&
  (!pyTruthy to_date || strLe r.datetime (to_date.getD "" ++ "T23:59:59"))

/-- The row set selected by `get_events` before ordering and pagination. -/
def selectRows (db : DB) (location event_type date from_date to_date : Option String) :
    List EventRow :=
  db.events.filter (matchesFilters location event_type date from_date to_date)

/-- The `ORDER BY` direction of `get_events` (line 398):
`"DESC" if sort.lower() == "desc" else "ASC"`. -/
def ordDesc (sort : String) : Bool := strToLower sort == "desc"

/-- Insert one row into a list sorted by the boolean comparison `le`. -/
def insertSorted (le : EventRow → EventRow → Bool) (x : EventRow) :
    List EventRow → List EventRow
  | [] => [x]
  | y :: ys => if le x y then x :: y :: ys else y :: insertSorted le x ys

/-- Sort rows by the boolean comparison `le` (insertion sort; the engine's
ordering among equal keys is unspecified, so any stable order is a faithful
model). -/
def sortRows (le : EventRow → EventRow → Bool) : List EventRow → List EventRow
  | [] => []
  | x :: xs => insertSorted le x (sortRows le xs)

/-- The `ORDER BY datetime` comparison, descending when `desc` is true. -/
def dtLe (desc : Bool) (a b : EventRow) : Bool :=
  if desc then strLe b.datetime a.datetime else strLe a.datetime b.datetime

/-- `database.get_events`: filter, sort by `datetime` in the requested
direction, apply `OFFSET`/`LIMIT`, and return each selected row's verbatim
`raw_data`. -/
def get_events (db : DB) (location event_type date from_date to_date : Option String)
    (limit offset : Nat) (sort : String) : List RawEvent :=
  ((((sortRows (dtLe (ordDesc sort))
      (selectRows db location event_type date from_date to_date)).drop offset).take limit).map
    EventRow.raw_data)

/-- The structured result dict of `create_backup` (on failure the source
returns only `success` and `error`; the remaining fields are `none`). -/
structure BackupResult where
  success : Bool
  filename : Option String
  size_bytes : Option Nat
  events_count : Option Nat
  verified : Bool
  error : Option String
deriving DecidableEq, Repr

/-- The observable outcome of one `create_backup` run: the database (its
`backup_log` grows by one row), the artifact left on disk (`none` when the
file was deleted or never completed), and the returned dict. -/
structure BackupOutcome where
  db : DB
  artifact : Option (List EventRow)
  result : BackupResult
deriving DecidableEq, Repr

/-- The timestamp-based artifact name `events_backup_<timestamp>.db`. -/
def backupFilename (now : Int) : String :=
  "events_backup_" ++ toString now ++ ".db"

/-- Append one row to `backup_log`. -/
def logBackup (db : DB) (now : Int) (fn : String) (size : Option Nat)
    (success : Bool) (err : Option String) : DB :=
  { db with backup_log := db.backup_log ++ [⟨now, fn, size, success, err⟩] }

/-- `database.create_backup`.  A run is parameterized by the outcome of the
live-copy step (`copy`, with `Except.error e` standing for an exception
whose `str` is `e`), the artifact's `PRAGMA integrity_check` (`none` for
"ok", `some m` for the failure text), and the artifact's file size.  The
body's `try`/`except Exception` turns every raised error — a failed copy, a
failed consistency check, a row-count mismatch — into: the artifact is
deleted (`unlink`), a failed `backup_log` row carrying `str(e)` is
recorded, and the structured failure dict is returned.  The function is
total: nothing escapes the boundary. -/
def create_backup (db : DB) (copy : Except String (List EventRow))
    (integrity : Option String) (size : Nat) (now : Int) : BackupOutcome :=
  let fn := backupFilename now
  let failWith : String → BackupOutcome := fun msg =>
    { db := logBackup db now fn none false (some msg),
      artifact := none,
      result := { success := false, filename := none, size_bytes := none,
                  events_count := none, verified := false, error := some msg } }
  match copy with
  | .error e => failWith e
  | .ok rows =>
    match integrity with
    | some m => failWith ("Backup verification failed: " ++ m)
    | none =>
      if db.events.length ≠ rows.length then
        failWith ("Backup event count mismatch: " ++ toString rows.length ++
                  " vs " ++ toString db.events.length)
      else
        { db := logBackup db now fn (some size) true none,
          artifact := some rows,
          result := { success := true, filename := some fn, size_bytes := some size,
                      events_count := some rows.length, verified := true, error := none } }

/-- The spec's filter semantics for `queryEvents` (stated from the spec's
words, to be compared with the code's `selectRows`): exact `location`,
exact `type`, left-anchored `date` prefix against `datetime`, inclusive
`from_date` lower bound, inclusive end-of-day `to_date` upper bound
(compared as `to_date + "T23:59:59"`); supplied filters combine
conjunctively. -/
def specQueryMatch (location event_type date from_date to_date : Option String)
    (r : EventRow) : Prop :=
  (∀ l, location = some l → r.location_name = l) ∧
  (∀ t, event_type = some t → r.type = t) ∧
  (∀ d, date = some d → strStarts r.datetime d = true) ∧
  (∀ f, from_date = some f → strLe f r.datetime = true) ∧
  (∀ t, to_date = some t → strLe r.datetime (t ++ "T23:59:59") = true)

/-- The spec's notion for the retention job: a fetch-log entry is stale when
its timestamp is older than 30 days. -/
def olderThan30 (now : Int) (r : FetchLogRow) : Prop :=
  r.fetched_at < now - days30

/-- A record is settled with respect to a table state when, if it passes the
top-level key check, its bound values extract cleanly and the insert would
be skipped: either a `NOT NULL` column is `NULL`, or its id is already
present.  After a successful pass over a batch, every record of the batch
is settled w.r.t. the resulting table. -/
def settled (rows : List EventRow) (e : RawEvent) : Prop :=
  hasRequiredKeys e = true →
    ∃ v, extractVals e = .ok v ∧
      (hasNullRequired v = true ∨ hasEventId rows v.id = true)

/- Concrete records used by witnesses and counterexamples. -/

/-- A well-formed incoming record. -/
def goodEvent : RawEvent :=
  { id := .val 1, datetime := .str "2024-05-01T10:00:00", name := .str "Trafikolycka",
    summary := .str "Krock mellan tva bilar", url := .str "/handelser/1",
    type := .str "Trafikolycka",
    location := .obj (.str "Stockholm") (.str "59.33,18.06") }

/-- A record with the same `id` as `goodEvent` but different content. -/
def dupEvent : RawEvent :=
  { id := .val 1, datetime := .str "2025-01-01T00:00:00", name := .str "Inbrott",
    summary := .absent, url := .absent, type := .str "Inbrott",
    location := .obj (.str "Uppsala") .absent }

/-- A record whose `location` object lacks the nested `name`. -/
def badLocEvent : RawEvent :=
  { id := .val 7, datetime := .str "2024-05-03T09:00:00", name := .str "Stold",
    summary := .absent, url := .absent, type := .str "Stold",
    location := .obj .absent .absent }

/-- A record with no `location` key at all (fails the top-level check). -/
def noLocEvent : RawEvent :=
  { id := .val 8, datetime := .str "2024-05-04T12:00:00", name := .str "Brand",
    summary := .absent, url := .absent, type := .str "Brand",
    location := .absent }

/-- A record whose `datetime` key holds JSON `null`: the top-level key check
passes, but the bound value is SQL `NULL` in a `NOT NULL` column. -/
def nullDtEvent : RawEvent :=
  { id := .val 9, datetime := .null, name := .str "Ran",
    summary := .absent, url := .absent, type := .str "Ran",
    location := .obj (.str "Malmo") .absent }

/-- The `events` row stored for `goodEvent` at time 0. -/
def row1 : EventRow :=
  { id := 1, datetime := "2024-05-01T10:00:00", name := "Trafikolycka",
    summary := some "Krock mellan tva bilar", url := some "/handelser/1",
    type := "Trafikolycka", location_name := "Stockholm",
    location_gps := some "59.33,18.06", raw_data := goodEvent, fetched_at := 0 }

/-- The connection state after inserting `goodEvent` on a fresh connection
over the empty database. -/
def connAfterGood : Conn := ⟨⟨[row1], [], []⟩, 1⟩

/-- The database after one successful fetch cycle over the batch
`[goodEvent]` at time 0. -/
def dbAfterGood : DB := ⟨[row1], [⟨0, 1, 1, true, none⟩], []⟩

/-- The database after one successful fetch cycle over the batch
`[goodEvent, noLocEvent]` at time 0 (the invalid record is skipped). -/
def dbAfterExample : DB := ⟨[row1], [⟨0, 2, 1, true, none⟩], []⟩

/-- The bound-parameter tuple extracted from `dupEvent`. -/
def dupVals : InsertVals :=
  { id := 1, datetime := some "2025-01-01T00:00:00", name := some "Inbrott",
    summary := some "", url := some "", type := some "Inbrott",
    location_name := some "Uppsala", location_gps := some "" }

/-- The bound-parameter tuple extracted from `nullDtEvent` (SQL `NULL`
datetime). -/
def nullDtVals : InsertVals :=
  { id := 9, datetime := none, name := some "Ran",
    summary := some "", url := some "", type := some "Ran",
    location_name := some "Malmo", location_gps := some "" }

/-- A stored row dated January 2024 (used by the query-ordering claims). -/
def rowA : EventRow :=
  { id := 1, datetime := "2024-01-01T00:00:00", name := "A", summary := none,
    url := none, type := "T", location_name := "X", location_gps := none,
    raw_data := goodEvent, fetched_at := 0 }

/-- A stored row dated June 2024. -/
def rowB : EventRow :=
  { id := 2, datetime := "2024-06-01T00:00:00", name := "B", summary := none,
    url := none, type := "T", location_name := "X", location_gps := none,
    raw_data := dupEvent, fetched_at := 0 }

/-- A two-row store with `rowA` older than `rowB`. -/
def twoRowDB : DB := ⟨[rowA, rowB], [], []⟩

/-! ## Helper lemmas -/

/-- When value extraction succeeds, `insert_event` performs the
`INSERT OR IGNORE` and reports the cumulative change counter. -/
theorem insert_event_ok (c : Conn) (e : RawEvent) (now : Int) (v : InsertVals)
    (hv : extractVals e = .ok v) :
    insert_event c e now =
      .ok (sqlInsertEvent c v e now, (sqlInsertEvent c v e now).totalChanges != 0) := by
  simp [insert_event, hv]

/-- When value extraction raises, `insert_event` propagates the exception. -/
theorem insert_event_err (c : Conn) (e : RawEvent) (now : Int) (err : PyErr)
    (hv : extractVals e = .error err) :
    insert_event c e now = .error err := by
  simp [insert_event, hv]

/-- Inversion for a successful `insert_event`. -/
theorem insert_event_inv (c : Conn) (e : RawEvent) (now : Int) (c' : Conn) (b : Bool)
    (h : insert_event c e now = .ok (c', b)) :
    ∃ v, extractVals e = .ok v ∧ c' = sqlInsertEvent c v e now ∧
      b = ((sqlInsertEvent c v e now).totalChanges != 0) := by
  cases hv : extractVals e with
  | error err => rw [insert_event_err c e now err hv] at h; cases h
  | ok v =>
    rw [insert_event_ok c e now v hv] at h
    simp only [Except.ok.injEq, Prod.mk.injEq] at h
    exact ⟨v, rfl, h.1.symm, h.2.symm⟩

/-- A conflicting or `NULL`-violating insert is skipped unchanged. -/
theorem sqlInsertEvent_skip (c : Conn) (v : InsertVals) (raw : RawEvent) (now : Int)
    (h : hasNullRequired v = true ∨ hasEventId c.db.events v.id = true) :
    sqlInsertEvent c v raw now = c := by
  unfold sqlInsertEvent
  rcases h with h | h
  · by_cases h1 : hasEventId c.db.events v.id = true
    · simp [h1]
    · simp [h1, h]
  · simp [h]

/-- `sqlInsertEvent` only ever appends to `events` and touches no other
table. -/
theorem sqlInsertEvent_extends (c : Conn) (v : InsertVals) (raw : RawEvent) (now : Int) :
    (∃ t, (sqlInsertEvent c v raw now).db.events = c.db.events ++ t) ∧
    (sqlInsertEvent c v raw now).db.fetch_log = c.db.fetch_log ∧
    (sqlInsertEvent c v raw now).db.backup_log = c.db.backup_log := by
  unfold sqlInsertEvent
  by_cases h1 : hasEventId c.db.events v.id = true
  · simp [h1]
  · by_cases h2 : hasNullRequired v = true
    · simp [h1, h2]
    · simp [h1, h2]

/-- After `sqlInsertEvent`, the value's id is present unless the row was a
`NOT NULL` skip. -/
theorem sqlInsertEvent_settles (c : Conn) (v : InsertVals) (raw : RawEvent) (now : Int) :
    hasNullRequired v = true ∨
    hasEventId (sqlInsertEvent c v raw now).db.events v.id = true := by
  by_cases h1 : hasEventId c.db.events v.id = true
  · right
    unfold sqlInsertEvent
    rw [if_pos h1]
    exact h1
  · by_cases h2 : hasNullRequired v = true
    · exact .inl h2
    · right
      unfold sqlInsertEvent
      rw [if_neg h1, if_neg h2]
      simp [hasEventId, mkRow]

/-- Id presence is preserved by appending rows. -/
theorem hasEventId_append (l t : List EventRow) (i : Int)
    (h : hasEventId l i = true) : hasEventId (l ++ t) i = true := by
  simp only [hasEventId, List.any_append, Bool.or_eq_true]
  exact .inl h

/-- Skipping an invalid record: the loop continues on the tail. -/
theorem processEvents_skip (now : Int) (e : RawEvent) (rest : List RawEvent) (c : Conn)
    (hk : hasRequiredKeys e = false) :
    processEvents now (e :: rest) c = processEvents now rest c := by
  simp [processEvents, hk]

/-- Inversion for a successful loop step on a valid record. -/
theorem processEvents_cons_ok (now : Int) (e : RawEvent) (rest : List RawEvent)
    (c c' : Conn) (n : Nat) (hk : hasRequiredKeys e = true)
    (h : processEvents now (e :: rest) c = .ok (c', n)) :
    ∃ c1 b n2, insert_event c e now = .ok (c1, b) ∧
      processEvents now rest c1 = .ok (c', n2) ∧ n = (if b then 1 else 0) + n2 := by
  simp only [processEvents, if_pos hk] at h
  cases hi : insert_event c e now with
  | error err => rw [hi] at h; simp at h
  | ok p =>
    obtain ⟨c1, b⟩ := p
    rw [hi] at h
    dsimp only at h
    cases hr : processEvents now rest c1 with
    | error err => rw [hr] at h; simp at h
    | ok q =>
      obtain ⟨c2, n2⟩ := q
      rw [hr] at h
      simp only [Except.ok.injEq, Prod.mk.injEq] at h
      exact ⟨c1, b, n2, rfl, h.1 ▸ hr, h.2.symm⟩

/-- A successful pass only appends to `events` and leaves the log tables
alone. -/
theorem processEvents_extends (now : Int) (B : List RawEvent) :
    ∀ (c c' : Conn) (n : Nat), processEvents now B c = .ok (c', n) →
      (∃ t, c'.db.events = c.db.events ++ t) ∧
      c'.db.fetch_log = c.db.fetch_log ∧ c'.db.backup_log = c.db.backup_log := by
  induction B with
  | nil =>
    intro c c' n h
    simp only [processEvents, Except.ok.injEq, Prod.mk.injEq] at h
    rw [← h.1]
    exact ⟨⟨[], by simp⟩, rfl, rfl⟩
  | cons e rest ih =>
    intro c c' n h
    by_cases hk : hasRequiredKeys e = true
    · obtain ⟨c1, b, n2, hi, hr, -⟩ := processEvents_cons_ok now e rest c c' n hk h
      obtain ⟨v, -, hc1, -⟩ := insert_event_inv c e now c1 b hi
      obtain ⟨⟨t1, ht1⟩, hf1, hb1⟩ := sqlInsertEvent_extends c v e now
      obtain ⟨⟨t2, ht2⟩, hf2, hb2⟩ := ih c1 c' n2 hr
      subst hc1
      exact ⟨⟨t1 ++ t2, by rw [ht2, ht1, List.append_assoc]⟩,
        by rw [hf2, hf1], by rw [hb2, hb1]⟩
    · rw [processEvents_skip now e rest c (by simpa using hk)] at h
      exact ih c c' n h

/-- After a successful pass, every record of the batch is settled with
respect to the resulting table. -/
theorem processEvents_settles (now : Int) (B : List RawEvent) :
    ∀ (c c' : Conn) (n : Nat), processEvents now B c = .ok (c', n) →
      ∀ e ∈ B, settled c'.db.events e := by
  induction B with
  | nil => intro c c' n _ e he; cases he
  | cons e0 rest ih =>
    intro c c' n h e he
    by_cases hk0 : hasRequiredKeys e0 = true
    · obtain ⟨c1, b, n2, hi, hr, -⟩ := processEvents_cons_ok now e0 rest c c' n hk0 h
      rcases List.mem_cons.mp he with rfl | hmem
      · intro _
        obtain ⟨v, hv, hc1, -⟩ := insert_event_inv c e now c1 b hi
        refine ⟨v, hv, ?_⟩
        rcases sqlInsertEvent_settles c v e now with hnull | hid
        · exact .inl hnull
        · right
          obtain ⟨⟨t, ht⟩, -, -⟩ := processEvents_extends now rest c1 c' n2 hr
          rw [ht, ← hc1] at *
          exact hasEventId_append c1.db.events t v.id (hc1 ▸ hid)
      · exact ih c1 c' n2 hr e hmem
    · rw [processEvents_skip now e0 rest c (by simpa using hk0)] at h
      rcases List.mem_cons.mp he with rfl | hmem
      · intro hk; exact absurd hk hk0
      · exact ih c c' n h e hmem

/-- A batch that is settled for a fresh connection's table is a no-op:
nothing is inserted, the change counter stays 0, and no insert is reported
as new. -/
theorem processEvents_noop (now : Int) (B : List RawEvent) :
    ∀ (c : Conn), c.totalChanges = 0 →
      (∀ e ∈ B, settled c.db.events e) →
      processEvents now B c = .ok (c, 0) := by
  induction B with
  | nil => intro c _ _; simp [processEvents]
  | cons e0 rest ih =>
    intro c htc hB
    by_cases hk : hasRequiredKeys e0 = true
    · obtain ⟨v, hv, hvs⟩ := hB e0 (List.mem_cons_self e0 rest) hk
      have hskip : sqlInsertEvent c v e0 now = c := sqlInsertEvent_skip c v e0 now hvs
      have hins := insert_event_ok c e0 now v hv
      rw [hskip] at hins
      simp only [processEvents, if_pos hk, hins]
      rw [ih c htc (fun e he => hB e (List.mem_cons_of_mem e0 he))]
      simp [htc]
    · rw [processEvents_skip now e0 rest c (by simpa using hk)]
      exact ih c htc (fun e he => hB e (List.mem_cons_of_mem e0 he))

/-! ## Claim theorems -/

/-- C1: Idempotent ingestion — if a fetch cycle over batch `B` completes
(with any result), running the cycle again over the same batch yields
`events_new = 0` and leaves the `events` table unchanged; only the fetch
log grows. -/
theorem fetch_cycle_idempotent (B : List RawEvent) (db : DB) (now1 now2 : Int)
    (db1 : DB) (r1 : FetchResult)
    (h : fetch_and_store_events B db now1 = .ok (db1, r1)) :
    ∃ db2 r2, fetch_and_store_events B db1 now2 = .ok (db2, r2) ∧
      r2.events_new = 0 ∧ db2.events = db1.events ∧ db2.backup_log = db1.backup_log := by
  by_cases hB : B.isEmpty = true
  · refine ⟨{ db1 with fetch_log := db1.fetch_log ++ [⟨now2, 0, 0, false, some "Failed to fetch events"⟩] },
      ⟨false, 0, 0, some "Failed to fetch events from Police API"⟩, ?_, rfl, rfl, rfl⟩
    simp [fetch_and_store_events, hB, log_fetch]
  · unfold fetch_and_store_events at h
    rw [if_neg hB] at h
    cases hp : processEvents now1 B ⟨db, 0⟩ with
    | error err => rw [hp] at h; simp at h
    | ok p =>
      obtain ⟨c, n⟩ := p
      rw [hp] at h
      simp only [Except.ok.injEq, Prod.mk.injEq] at h
      have hev : db1.events = c.db.events := by
        rw [← h.1]
        rfl
      have hset : ∀ e ∈ B, settled db1.events e := by
        rw [hev]
        exact processEvents_settles now1 B ⟨db, 0⟩ c n hp
      have hno : processEvents now2 B ⟨db1, 0⟩ = .ok (⟨db1, 0⟩, 0) :=
        processEvents_noop now2 B ⟨db1, 0⟩ rfl hset
      refine ⟨(log_fetch ⟨db1, 0⟩ B.length 0 true none now2).db,
        ⟨true, B.length, 0, none⟩, ?_, rfl, ?_, ?_⟩
      · unfold fetch_and_store_events
        rw [if_neg hB, hno]
      · simp [log_fetch]
      · simp [log_fetch]

/-- C1 witness: a concrete second run over the one-record batch
`[goodEvent]` against the store left by the first run. -/
theorem fetch_cycle_idempotent_witness :
    ∃ db2 r2, fetch_and_store_events [goodEvent] dbAfterGood 1 = .ok (db2, r2) ∧
      r2.events_new = 0 ∧ db2.events = dbAfterGood.events ∧
      db2.backup_log = dbAfterGood.backup_log :=
  fetch_cycle_idempotent [goodEvent] emptyDB 0 1 dbAfterGood ⟨true, 1, 1, none⟩ rfl

/-- C2: the claim that `insert_event` returns true iff the call created a
row fails on the code: `conn.total_changes` is connection-cumulative, so
after any earlier successful insert on the same connection, a duplicate-id
insert (which creates no row: the state is unchanged) still returns
`true`. -/
theorem insert_event_duplicate_reports_new :
    insert_event ⟨emptyDB, 0⟩ goodEvent 0 = .ok (connAfterGood, true) ∧
    insert_event connAfterGood dupEvent 0 = .ok (connAfterGood, true) ∧
    connAfterGood.db.events.length = 1 :=
  ⟨rfl, rfl, rfl⟩

/-- C3 counterexample: a record whose `location` object lacks the nested
`name` passes the top-level key check, raises `KeyError` inside
`insert_event`, and aborts the whole batch — the following well-formed
record is never processed and no result is produced. -/
theorem missing_nested_name_aborts_batch :
    fetch_and_store_events [badLocEvent, goodEvent] emptyDB 0 =
      .error (.keyError "name") :=
  rfl

/-- C3 amended: a record missing a required top-level field (`id`,
`datetime`, `name`, `type`, `location`) is skipped without aborting the
batch and counts toward `events_fetched` but not `events_new` (the claim's
own example batch yields `events_fetched = 2`, `events_new = 1`); but a
`location` object lacking the nested `name` is not validated and aborts
the batch. -/
theorem invalid_records_skipped :
    (∀ (e : RawEvent) (pre post : List RawEvent) (c : Conn) (now : Int),
        hasRequiredKeys e = false →
        processEvents now (pre ++ e :: post) c = processEvents now (pre ++ post) c) ∧
    fetch_and_store_events [goodEvent, noLocEvent] emptyDB 0 =
      .ok (dbAfterExample, ⟨true, 2, 1, none⟩) := by
  constructor
  · intro e pre post c now hk
    induction pre generalizing c with
    | nil => exact processEvents_skip now e post c hk
    | cons p pre ih =>
      by_cases hp : hasRequiredKeys p = true
      · simp only [List.cons_append, processEvents, if_pos hp]
        cases hi : insert_event c p now with
        | error err => rfl
        | ok q =>
          obtain ⟨c1, b⟩ := q
          dsimp only
          simp only [List.append_eq]
          rw [ih c1]
      · rw [List.cons_append, List.cons_append,
          processEvents_skip now p (pre ++ e :: post) c (by simpa using hp),
          processEvents_skip now p (pre ++ post) c (by simpa using hp)]
        exact ih c
  · rfl

/-- C3 witness: the skip property applied to the concrete invalid record
`noLocEvent` placed before a well-formed record. -/
theorem invalid_records_skipped_witness :
    processEvents 0 ([] ++ noLocEvent :: [goodEvent]) ⟨emptyDB, 0⟩ =
      processEvents 0 ([] ++ [goodEvent]) ⟨emptyDB, 0⟩ :=
  invalid_records_skipped.1 noLocEvent [] [goodEvent] ⟨emptyDB, 0⟩ 0 rfl

/-- C4 counterexample: a `NULL` required column (`datetime` here) is not
surfaced as a store error: the `INSERT OR IGNORE` skips the row silently
and `insert_event` returns `ok false` on a fresh connection. -/
theorem null_required_column_swallowed :
    insert_event ⟨emptyDB, 0⟩ nullDtEvent 0 = .ok (⟨emptyDB, 0⟩, false) :=
  rfl

/-- C4 amended: `insert_event` never raises on a duplicate-id conflict, but
it also never raises on any other constraint violation the schema can
produce — a `NULL` required column is absorbed exactly like a duplicate
(row skipped, state unchanged, no error).  Whenever the bound values can be
built, the call returns `ok`. -/
theorem insert_event_absorbs_integrity_violations (c : Conn) (e : RawEvent)
    (now : Int) (v : InsertVals) (hv : extractVals e = .ok v) :
    ∃ c' b, insert_event c e now = .ok (c', b) ∧
      ((hasNullRequired v = true ∨ hasEventId c.db.events v.id = true) → c' = c) := by
  refine ⟨sqlInsertEvent c v e now, (sqlInsertEvent c v e now).totalChanges != 0,
    insert_event_ok c e now v hv, ?_⟩
  intro h
  exact sqlInsertEvent_skip c v e now h

/-- C4 witness: the amended claim applied to the concrete `NULL`-datetime
record on a fresh connection. -/
theorem insert_event_absorbs_integrity_violations_witness :
    ∃ c' b, insert_event ⟨emptyDB, 0⟩ nullDtEvent 0 = .ok (c', b) ∧
      ((hasNullRequired nullDtVals = true ∨
        hasEventId (⟨emptyDB, 0⟩ : Conn).db.events nullDtVals.id = true) →
        c' = ⟨emptyDB, 0⟩) :=
  insert_event_absorbs_integrity_violations ⟨emptyDB, 0⟩ nullDtEvent 0 nullDtVals rfl

/-- C5: events are immutable once stored — `insert_event` only ever appends
rows; re-inserting an already-present id leaves the table exactly as it
was (the first-written content is retained); and no other operation
(`log_fetch`, `cleanup_old_logs`, `create_backup`) updates or deletes a
row of the `events` table. -/
theorem events_immutable :
    (∀ (c : Conn) (e : RawEvent) (now : Int) (c' : Conn) (b : Bool),
        insert_event c e now = .ok (c', b) →
        ∃ t, c'.db.events = c.db.events ++ t) ∧
    (∀ (c : Conn) (e : RawEvent) (now : Int) (v : InsertVals),
        extractVals e = .ok v → hasEventId c.db.events v.id = true →
        ∃ b, insert_event c e now = .ok (c, b)) ∧
    (∀ (db : DB) (now : Int), ((cleanup_old_logs db now).1).events = db.events) ∧
    (∀ (c : Conn) (f n : Nat) (s : Bool) (err : Option String) (now : Int),
        (log_fetch c f n s err now).db.events = c.db.events) ∧
    (∀ (db : DB) (copy : Except String (List EventRow)) (integ : Option String)
        (size : Nat) (now : Int),
        (create_backup db copy integ size now).db.events = db.events) := by
  refine ⟨?_, ?_, ?_, ?_, ?_⟩
  · intro c e now c' b h
    obtain ⟨v, -, hc', -⟩ := insert_event_inv c e now c' b h
    obtain ⟨⟨t, ht⟩, -, -⟩ := sqlInsertEvent_extends c v e now
    exact ⟨t, by rw [hc', ht]⟩
  · intro c e now v hv hid
    have hskip : sqlInsertEvent c v e now = c :=
      sqlInsertEvent_skip c v e now (.inr hid)
    have h := insert_event_ok c e now v hv
    rw [hskip] at h
    exact ⟨c.totalChanges != 0, h⟩
  · intro db now
    rfl
  · intro c f n s err now
    rfl
  · intro db copy integ size now
    cases copy with
    | error e => rfl
    | ok rows =>
      cases integ with
      | some m => rfl
      | none =>
        by_cases hl : db.events.length ≠ rows.length
        · simp [create_backup, logBackup, hl]
        · simp [create_backup, logBackup, hl]

/-- C5 witness: the append-only and duplicate-retention parts applied to
the concrete duplicate `dupEvent` against the store holding `goodEvent`'s
row. -/
theorem events_immutable_witness :
    (∃ t, connAfterGood.db.events = (⟨emptyDB, 0⟩ : Conn).db.events ++ t) ∧
    (∃ b, insert_event connAfterGood dupEvent 0 = .ok (connAfterGood, b)) :=
  ⟨events_immutable.1 ⟨emptyDB, 0⟩ goodEvent 0 connAfterGood true rfl,
   events_immutable.2.1 connAfterGood dupEvent 0 dupVals rfl rfl⟩

/-- C6: `get_events` filter semantics — for non-empty filter arguments (the
documented forms), a row is selected iff it is stored and satisfies the
spec's conjunctive semantics: exact `location`/`type`, left-anchored `date`
prefix against `datetime`, inclusive `from_date` lower bound, and the
end-of-day `to_date` upper bound compared as `to_date + "T23:59:59"`. -/
theorem get_events_filter_semantics (location event_type date from_date to_date : Option String)
    (db : DB) (r : EventRow)
    (h1 : ∀ s, location = some s → s ≠ "")
    (h2 : ∀ s, event_type = some s → s ≠ "")
    (h3 : ∀ s, date = some s → s ≠ "")
    (h4 : ∀ s, from_date = some s → s ≠ "")
    (h5 : ∀ s, to_date = some s → s ≠ "") :
    r ∈ selectRows db location event_type date from_date to_date ↔
      r ∈ db.events ∧ specQueryMatch location event_type date from_date to_date r := by
  rw [selectRows, List.mem_filter]
  refine and_congr_right fun _ => ?_
  rcases location with _ | l <;> rcases event_type with _ | t <;>
    rcases date with _ | d <;> rcases from_date with _ | f <;> rcases to_date with _ | u <;>
    simp_all [matchesFilters, specQueryMatch, pyTruthy, bne, and_assoc]

/-- C6 witness: the filter characterization at a concrete store, row and
`date` filter. -/
theorem get_events_filter_semantics_witness :
    rowA ∈ selectRows twoRowDB none none (some "2024-01") none none ↔
      rowA ∈ twoRowDB.events ∧ specQueryMatch none none (some "2024-01") none none rowA :=
  get_events_filter_semantics none none (some "2024-01") none none twoRowDB rowA
    (fun _ h => by cases h) (fun _ h => by cases h)
    (fun s h => by cases h; decide)
    (fun _ h => by cases h) (fun _ h => by cases h)

/-- C7: `create_backup` failure handling — whenever the artifact's
consistency check fails or its event count differs from the source's, the
artifact is deleted, a failed backup-log entry carrying the error text is
recorded, and a structured failure result is returned; moreover every run
(any copy outcome, any check outcome) returns a structured result that is
either a success or carries an error message — nothing escapes the
boundary. -/
theorem create_backup_failure_handling (db : DB) (rows : List EventRow)
    (integ : Option String) (size : Nat) (now : Int)
    (h : integ ≠ none ∨ db.events.length ≠ rows.length) :
    ((create_backup db (.ok rows) integ size now).artifact = none ∧
     (create_backup db (.ok rows) integ size now).result.success = false ∧
     ∃ msg, (create_backup db (.ok rows) integ size now).result.error = some msg ∧
       (create_backup db (.ok rows) integ size now).db.backup_log =
         db.backup_log ++ [⟨now, backupFilename now, none, false, some msg⟩]) ∧
    (∀ (copy : Except String (List EventRow)) (integ2 : Option String),
      (create_backup db copy integ2 size now).result.success = true ∨
      ∃ m, (create_backup db copy integ2 size now).result.error = some m) := by
  constructor
  · cases integ with
    | some m => exact ⟨rfl, rfl, "Backup verification failed: " ++ m, rfl, rfl⟩
    | none =>
      have hl : db.events.length ≠ rows.length := by
        rcases h with h | h
        · exact absurd rfl h
        · exact h
      refine ⟨?_, ?_, "Backup event count mismatch: " ++ toString rows.length ++
          " vs " ++ toString db.events.length, ?_, ?_⟩ <;>
        simp [create_backup, logBackup, hl]
  · intro copy integ2
    cases copy with
    | error e => exact .inr ⟨e, rfl⟩
    | ok rows2 =>
      cases integ2 with
      | some m => exact .inr ⟨"Backup verification failed: " ++ m, rfl⟩
      | none =>
        by_cases hl : db.events.length ≠ rows2.length
        · refine .inr ⟨"Backup event count mismatch: " ++ toString rows2.length ++
            " vs " ++ toString db.events.length, ?_⟩
          simp [create_backup, hl]
        · left
          simp [create_backup, hl]

/-- C7 witness: a concrete run whose consistency check fails. -/
theorem create_backup_failure_handling_witness :
    (((create_backup emptyDB (.ok []) (some "corrupt") 55 3).artifact = none ∧
      (create_backup emptyDB (.ok []) (some "corrupt") 55 3).result.success = false ∧
      ∃ msg, (create_backup emptyDB (.ok []) (some "corrupt") 55 3).result.error = some msg ∧
        (create_backup emptyDB (.ok []) (some "corrupt") 55 3).db.backup_log =
          emptyDB.backup_log ++ [⟨3, backupFilename 3, none, false, some msg⟩]) ∧
     (∀ (copy : Except String (List EventRow)) (integ2 : Option String),
       (create_backup emptyDB copy integ2 55 3).result.success = true ∨
       ∃ m, (create_backup emptyDB copy integ2 55 3).result.error = some m)) :=
  create_backup_failure_handling emptyDB [] (some "corrupt") 55 3 (.inl (by simp))

/-- C8 counterexample: the sort argument `"latest"`, which requests neither
order, yields ascending order, not the claimed default descending order
(shown against the explicit `"desc"` run on the same two-row store). -/
theorem sort_neither_order_is_ascending :
    get_events twoRowDB none none none none none 500 0 "latest" =
      [rowA.raw_data, rowB.raw_data] ∧
    get_events twoRowDB none none none none none 500 0 "desc" =
      [rowB.raw_data, rowA.raw_data] ∧
    rowA.raw_data ≠ rowB.raw_data :=
  ⟨rfl, rfl, by decide⟩

/-- C8 amended: `get_events` sorts descending exactly when the sort
argument is `"desc"` case-insensitively (the default); every other value —
including one requesting neither order — behaves as an explicit ascending
request. -/
theorem get_events_sort_direction (db : DB)
    (location event_type date from_date to_date : Option String)
    (limit offset : Nat) (sort : String) :
    get_events db location event_type date from_date to_date limit offset sort =
      if strToLower sort == "desc" then
        get_events db location event_type date from_date to_date limit offset "desc"
      else
        get_events db location event_type date from_date to_date limit offset "asc" := by
  by_cases hs : (strToLower sort == "desc") = true
  · rw [if_pos hs]
    unfold get_events ordDesc
    rw [hs]
    rfl
  · have hs' : (strToLower sort == "desc") = false := by simpa using hs
    rw [if_neg hs]
    unfold get_events ordDesc
    rw [hs']
    rfl

/-- C9: the log-retention job removes exactly the fetch-log entries whose
timestamp is older than 30 days, retains the rest, returns the number
deleted (deleted + retained = original count), and leaves the `events` and
`backup_log` tables untouched. -/
theorem cleanup_old_logs_spec (db : DB) (now : Int) :
    (∀ r, r ∈ ((cleanup_old_logs db now).1).fetch_log ↔
      r ∈ db.fetch_log ∧ ¬ olderThan30 now r) ∧
    (cleanup_old_logs db now).2 + ((cleanup_old_logs db now).1).fetch_log.length =
      db.fetch_log.length ∧
    ((cleanup_old_logs db now).1).events = db.events ∧
    ((cleanup_old_logs db now).1).backup_log = db.backup_log := by
  refine ⟨?_, ?_, rfl, rfl⟩
  · intro r
    simp [cleanup_old_logs, List.mem_filter, olderThan30]
  · have h := List.length_eq_length_filter_add
      (l := db.fetch_log) (fun r => decide (r.fetched_at < now - days30))
    simpa [cleanup_old_logs] using h.symm

/-- C10: a successful remote response that is an empty JSON array is
treated exactly like a transport failure: the same failed fetch-log entry
(`fetched = 0`, `new = 0`, `success = false`, error message) and the same
failure result as a timeout or an HTTP error. -/
theorem empty_array_indistinguishable_from_failure (db : DB) (now : Int) :
    runFetchCycle (.payload []) db now = runFetchCycle .timeout db now ∧
    runFetchCycle (.payload []) db now = runFetchCycle (.httpStatusError 500) db now ∧
    runFetchCycle (.payload []) db now =
      .ok ({ db with fetch_log := db.fetch_log ++ [⟨now, 0, 0, false, some "Failed to fetch events"⟩] },
        ⟨false, 0, 0, some "Failed to fetch events from Police API"⟩) :=
  ⟨rfl, rfl, rfl⟩

end Samband
